import Mathlib

/-!
Shallow embedding of `src/index.js` of the cortex-action repository.

The script is a single `run()` function: it classifies the inbound GitHub
event, fetches PR context through the Octokit REST client, POSTs a scan
request to a configured backend, and renders the result as a job summary
plus an optional SARIF upload.  External calls are modelled by an `Api`
oracle record holding the outcome each call would produce; JavaScript
exceptions are modelled with `Except JsError`, and the single top-level
`catch` handler by `failTrace`.  JavaScript `undefined`/`null` fields are
modelled as `Option` values, and JS truthiness tests on strings by
`jsTruthy` (absent or empty string is falsy).
-/

namespace Cortex

/-- A thrown JavaScript error: its `message`, and the HTTP status for
Octokit request errors (`none` for TypeErrors and network errors). -/
structure JsError where
  message : String
  status : Option Nat := none
  deriving Repr, DecidableEq

/-- Fields of `context.payload.pull_request` that the script reads. -/
structure PullRequestPayload where
  number : Nat
  head_ref : String
  merged : Bool
  deriving Repr, DecidableEq

/-- Fields of `context.payload.comment` that the script reads. -/
structure CommentPayload where
  body : String
  deriving Repr, DecidableEq

/-- Fields of `context.payload.issue` that the script reads; `pull_request` is the
presence of the issue's pull-request marker object. -/
structure IssuePayload where
  number : Nat
  pull_request : Bool
  deriving Repr, DecidableEq

/-- The GitHub Actions event context consumed by `run()`. -/
structure EventContext where
  eventName : String
  action : String
  pull_request : Option PullRequestPayload := none
  comment : Option CommentPayload := none
  issue : Option IssuePayload := none
  repoOwner : String := ""
  repoName : String := ""
  actor : String := ""
  sha : String := ""
  deriving Repr, DecidableEq

/-- The action's configuration inputs (`core.getInput` yields `""` for an
input that is not configured) plus the `GITHUB_TOKEN` env value. -/
structure Inputs where
  apiKey : String := ""
  backendUrl : String := ""
  consoleUrl : String := ""
  token : String := ""
  deriving Repr, DecidableEq

/-- One element of the `pulls.listFiles` response.  `patch` is absent for
binary files; the extra fields stand for response fields the script
does not project. -/
structure RawFile where
  filename : String
  status : String
  additions : Nat
  deletions : Nat
  patch : Option String := none
  sha : String := ""
  blob_url : String := ""
  deriving Repr, DecidableEq

/-- The projected changed-file shape built at lines 67-73 of the script. -/
structure ChangedFile where
  filename : String
  status : String
  additions : Nat
  deletions : Nat
  patch : Option String
  deriving Repr, DecidableEq

/-- Response fields of `users.getByUsername` that the script reads. -/
structure UserData where
  login : String
  name : Option String := none
  email : Option String := none
  avatar_url : String := ""
  html_url : String := ""
  company : Option String := none
  blog : Option String := none
  location : Option String := none
  bio : Option String := none
  public_repos : Nat := 0
  created_at : String := ""
  deriving Repr, DecidableEq

/-- Response fields of `orgs.get` that the script reads. -/
structure OrgData where
  login : String
  name : Option String := none
  email : Option String := none
  avatar_url : String := ""
  html_url : String := ""
  description : Option String := none
  location : Option String := none
  blog : Option String := none
  public_repos : Nat := 0
  created_at : String := ""
  deriving Repr, DecidableEq

/-- Response fields of `repos.get` that the script reads (`private` is a Lean
keyword, rendered `isPrivate`). -/
structure RepoData where
  name : String
  full_name : String
  description : Option String := none
  isPrivate : Bool := false
  default_branch : String := "main"
  language : Option String := none
  stargazers_count : Nat := 0
  forks_count : Nat := 0
  created_at : String := ""
  deriving Repr, DecidableEq

/-- The `ownerDetails` object assembled at lines 92-122: a `type` tag plus
the union of the organization-variant and user-variant fields. -/
structure OwnerDetails where
  type : String
  login : String
  name : Option String := none
  email : Option String := none
  avatar_url : String := ""
  profile_url : String := ""
  description : Option String := none
  location : Option String := none
  blog : Option String := none
  company : Option String := none
  bio : Option String := none
  public_repos : Nat := 0
  created_at : String := ""
  deriving Repr, DecidableEq

/-- One entry of `result.issues` in the backend's response. -/
structure Issue where
  rule_id : String
  message : String
  severity : String
  filename : String
  line : Nat
  deriving Repr, DecidableEq

/-- The parsed backend response body (`ScanResult`); every field may be
absent. -/
structure ScanResult where
  scan_url : Option String := none
  scan_id : Option String := none
  critical : Option Nat := none
  warnings : Option Nat := none
  suggestions : Option Nat := none
  passed : Option Nat := none
  issues : Option (List Issue) := none
  deriving Repr, DecidableEq

/-- The `fetch` response: `ok`, `status`, the `text()` body used on the
error path, and the `json()` body used on the success path. -/
structure BackendResponse where
  ok : Bool
  status : Nat
  bodyText : String := ""
  result : ScanResult := {}
  deriving Repr, DecidableEq

/-- One SARIF `results` entry as built at lines 207-217. -/
structure SarifResult where
  ruleId : String
  messageText : String
  level : String
  uri : String
  startLine : Nat
  deriving Repr, DecidableEq

/-- The SARIF report built at lines 198-219: version "2.1.0", one run,
one tool driver with an empty rule list, and the findings. -/
structure Sarif where
  version : String
  toolName : String
  rules : List String
  results : List SarifResult
  deriving Repr, DecidableEq

/-- Oracle for the external calls `run()` makes.  `prFiles` is the PR's
full changed-file collection held by the GitHub API, in API order;
`pageSize` is the REST endpoint's page size (the script passes no
`per_page`, so the documented default of 30 applies, and a single
`listFiles` call returns only the first page). -/
structure Api where
  prFiles : List RawFile := []
  pageSize : Nat := 30
  listFilesErr : Option JsError := none
  pullsGet : Except JsError PullRequestPayload := .error { message := "no pr" }
  actorUser : Except JsError UserData := .error { message := "no user" }
  repoGet : Except JsError RepoData := .error { message := "no repo" }
  orgsGet : Except JsError OrgData := .error { message := "no org" }
  ownerUser : Except JsError UserData := .error { message := "no owner" }
  backend : Except JsError BackendResponse := .error { message := "no backend" }
  uploadSarifRes : Except JsError Unit := .ok ()

/-- What the single `octokit.rest.pulls.listFiles` call at lines 61-65
returns: the first page of the paginated collection (the script never
calls `octokit.paginate`, so later pages are never fetched). -/
def Api.listFiles (api : Api) : Except JsError (List RawFile) :=
  match api.listFilesErr with
  | some e => .error e
  | none => .ok (api.prFiles.take api.pageSize)

/-- JavaScript whitespace test used by `String.prototype.trim` (the ASCII
whitespace characters that can occur in comment bodies). -/
def jsIsWhitespace (c : Char) : Bool :=
  c = ' ' || c = '\t' || c = '\n' || c = '\r'

/-- JavaScript `String.prototype.trim` on the character list of a string. -/
def jsTrim (l : List Char) : List Char :=
  ((l.dropWhile jsIsWhitespace).reverse.dropWhile jsIsWhitespace).reverse

/-- JavaScript `String.prototype.toLowerCase` (character-wise lowering). -/
def jsToLower (l : List Char) : List Char := l.map Char.toLower

/-- JavaScript `String.prototype.includes`: substring containment. -/
def jsIncludes (s pat : List Char) : Bool := decide (pat <:+: s)

/-- Lines 33-37: `comment = body.trim()` followed by
`comment.toLowerCase().includes('/cortex code review')`. -/
def matchesTrigger (body : String) : Bool :=
  jsIncludes (jsToLower (jsTrim body.data)) "/cortex code review".data

/-- JS truthiness of a possibly-absent string (absent or empty is falsy). -/
def jsTruthy : Option String → Bool
  | none => false
  | some s => !s.data.isEmpty

/-- JS `a || b` where `a` is a possibly-absent string. -/
def jsOrStr (o : Option String) (d : String) : String :=
  match o with
  | none => d
  | some s => if s.data.isEmpty then d else s

/-- JS `x || 0` on a possibly-absent numeric field. -/
def jsOrZero (o : Option Nat) : Nat := o.getD 0

/-- A TypeError thrown by reading a property of an `undefined` payload
field. -/
def typeError (prop : String) : JsError :=
  { message := "Cannot read properties of undefined (reading " ++ prop ++ ")" }

instance {ε α : Type} [DecidableEq ε] [DecidableEq α] : DecidableEq (Except ε α) :=
  fun x y =>
    match x, y with
    | .ok a, .ok b =>
        if h : a = b then .isTrue (by rw [h]) else .isFalse (by simp [h])
    | .error a, .error b =>
        if h : a = b then .isTrue (by rw [h]) else .isFalse (by simp [h])
    | .ok _, .error _ => .isFalse (by simp)
    | .error _, .ok _ => .isFalse (by simp)

/-- Outcome of the classification chain at lines 22-58: an early `return`
(clean skip), a thrown error, or a resolved trigger.  For
`manual_comment` the branch is the outcome of the `pulls.get` lookup at
lines 48-53; for the two pull_request triggers it comes straight from
the payload. -/
inductive Classified where
  | skip
  | err (e : JsError)
  | go (triggerType : String) (prNumber : Nat) (branch : Except JsError String)
  deriving Repr, DecidableEq

/-- Lines 32-53: the issue_comment/created branch.  The trigger-phrase
test comes first; comments that do not match, or that sit on a plain
issue, return early (skip). -/
def classifyComment (ctx : EventContext) (api : Api) : Classified :=
  match ctx.comment with
  | none => .err (typeError "body")
  | some c =>
    if !matchesTrigger c.body then .skip
    else
      match ctx.issue with
      | none => .err (typeError "pull_request")
      | some issue =>
        if !issue.pull_request then .skip
        else .go "manual_comment" issue.number (api.pullsGet.map (·.head_ref))

/-- Lines 22-58: the event-classification else-if chain.  A closed
pull_request whose `merged` flag is false falls through the remaining
conditions to the final else (skip). -/
def classify (ctx : EventContext) (api : Api) : Classified :=
  if ctx.eventName == "pull_request" && ctx.action == "opened" then
    match ctx.pull_request with
    | none => .err (typeError "number")
    | some pr => .go "pr_opened" pr.number (.ok pr.head_ref)
  else if ctx.eventName == "pull_request" && ctx.action == "closed" then
    match ctx.pull_request with
    | none => .err (typeError "merged")
    | some pr =>
      if pr.merged then .go "pr_merged" pr.number (.ok pr.head_ref)
      else if ctx.eventName == "issue_comment" && ctx.action == "created" then
        classifyComment ctx api
      else .skip
  else if ctx.eventName == "issue_comment" && ctx.action == "created" then
    classifyComment ctx api
  else .skip

/-- Lines 67-73: projection of one listFiles element to the ChangedFile
shape (`patch` is copied as-is, absent or not). -/
def projectFile (f : RawFile) : ChangedFile :=
  { filename := f.filename, status := f.status, additions := f.additions,
    deletions := f.deletions, patch := f.patch }

/-- Lines 61-73: the single `pulls.listFiles` call followed by the
per-element projection. -/
def fetchChangedFiles (api : Api) : Except JsError (List ChangedFile) :=
  api.listFiles.map (·.map projectFile)

/-- Lines 87-123: owner resolution.  The `catch (e)` at line 105 binds the
error but never inspects it: a failure of `orgs.get` of any class falls
into the individual-user lookup. -/
def resolveOwner (api : Api) : Except JsError OwnerDetails :=
  match api.orgsGet with
  | .ok orgData =>
      .ok { type := "organization", login := orgData.login, name := orgData.name,
            email := orgData.email, avatar_url := orgData.avatar_url,
            profile_url := orgData.html_url, description := orgData.description,
            location := orgData.location, blog := orgData.blog,
            public_repos := orgData.public_repos, created_at := orgData.created_at }
  | .error _ =>
      match api.ownerUser with
      | .error e => .error e
      | .ok userData =>
          .ok { type := "user", login := userData.login, name := userData.name,
                email := userData.email, avatar_url := userData.avatar_url,
                profile_url := userData.html_url, company := userData.company,
                blog := userData.blog, location := userData.location,
                bio := userData.bio, public_repos := userData.public_repos,
                created_at := userData.created_at }

/-- The field/value rows shared by the submitted summary (lines 128-137)
and the completed summary (lines 241-250). -/
structure SummaryFields where
  repository : String
  branch : String
  pr : String
  triggeredBy : String
  owner : String
  filesChanged : String
  trigger : String
  deriving Repr, DecidableEq

/-- The completed summary written at lines 239-261: the field table, the
Scan Results counts rendered as strings, and the console link. -/
structure CompletedSummary where
  fields : SummaryFields
  criticalStr : String
  warningsStr : String
  suggestionsStr : String
  passedStr : String
  link : String
  deriving Repr, DecidableEq

/-- The observable effects of one `run()` invocation. -/
structure RunTrace where
  submittedSummary : Option SummaryFields := none
  backendCalled : Bool := false
  sarifUpload : Option Sarif := none
  sarifUploadOk : Bool := false
  completedSummary : Option CompletedSummary := none
  failureSummary : Option String := none
  failed : Option String := none
  deriving Repr, DecidableEq

/-- Lines 266-273: the top-level catch handler writes a failure summary
containing the error message and marks the run failed. -/
def failTrace (t : RunTrace) (e : JsError) : RunTrace :=
  { t with failureSummary := some ("Error: " ++ e.message),
           failed := some e.message }

/-- Lines 188-194: console-link selection from the backend result. -/
def computeConsoleUrl (consoleUrl : String) (result : ScanResult) : String :=
  let base := if consoleUrl.data.isEmpty then "https://console.pervaziv.com"
              else consoleUrl
  if jsTruthy result.scan_url then result.scan_url.getD ""
  else if jsTruthy result.scan_id then base ++ "/scans/" ++ result.scan_id.getD ""
  else base

/-- Line 197: the guard `result.issues && result.issues.length > 0`. -/
def issuesNonempty : Option (List Issue) → Bool
  | none => false
  | some l => decide (0 < l.length)

/-- Lines 207-217: one issue mapped to one SARIF finding. -/
def issueToFinding (issue : Issue) : SarifResult :=
  { ruleId := issue.rule_id, messageText := issue.message,
    level := issue.severity, uri := issue.filename, startLine := issue.line }

/-- Lines 198-219: the SARIF report envelope. -/
def buildSarif (issues : List Issue) : Sarif :=
  { version := "2.1.0", toolName := "Cortex Code Review", rules := [],
    results := issues.map issueToFinding }

/-- Lines 239-261: write the completed summary with the numeric fields
rendered through `x || 0`. -/
def writeCompleted (t : RunTrace) (sf : SummaryFields) (result : ScanResult)
    (url : String) : RunTrace :=
  let cs : CompletedSummary :=
    { fields := sf,
      criticalStr := toString (jsOrZero result.critical),
      warningsStr := toString (jsOrZero result.warnings),
      suggestionsStr := toString (jsOrZero result.suggestions),
      passedStr := toString (jsOrZero result.passed),
      link := url }
  { t with completedSummary := some cs }

/-- Line 183: the message of the error thrown on a non-ok response. -/
def backendErrorMsg (status : Nat) (body : String) : String :=
  "Backend responded with " ++ toString status ++ ": " ++ body

/-- Lines 181-261: everything after the `fetch` resolves — the `ok` check
and thrown backend error, console-URL selection, the conditional SARIF
upload, and the completed summary; a thrown error lands in the catch
handler (`failTrace`). -/
def afterBackend (inp : Inputs) (api : Api) (sf : SummaryFields)
    (response : BackendResponse) (t : RunTrace) : RunTrace :=
  if !response.ok then
    failTrace t { message := backendErrorMsg response.status response.bodyText }
  else
    let result := response.result
    let url := computeConsoleUrl inp.consoleUrl result
    if issuesNonempty result.issues then
      let t1 := { t with sarifUpload := some (buildSarif (result.issues.getD [])) }
      match api.uploadSarifRes with
      | .error e => failTrace t1 e
      | .ok _ => writeCompleted { t1 with sarifUploadOk := true } sf result url
    else
      writeCompleted t sf result url

/-- Lines 4-274: the whole `run()` function, from classification to the
completed summary, with every thrown error landing in the catch
handler. -/
def run (ctx : EventContext) (inp : Inputs) (api : Api) : RunTrace :=
  match classify ctx api with
  | .skip => {}
  | .err e => failTrace {} e
  | .go triggerType prNumber branchRes =>
    match branchRes with
    | .error e => failTrace {} e
    | .ok branch =>
      match fetchChangedFiles api with
      | .error e => failTrace {} e
      | .ok changedFiles =>
        match api.actorUser with
        | .error e => failTrace {} e
        | .ok triggerUser =>
          match api.repoGet with
          | .error e => failTrace {} e
          | .ok repoData =>
            match resolveOwner api with
            | .error e => failTrace {} e
            | .ok ownerDetails =>
              let sf : SummaryFields :=
                { repository := repoData.full_name, branch := branch,
                  pr := "#" ++ toString prNumber,
                  triggeredBy := jsOrStr triggerUser.name triggerUser.login
                    ++ " (" ++ jsOrStr triggerUser.email "email not public" ++ ")",
                  owner := jsOrStr ownerDetails.name ownerDetails.login
                    ++ " (" ++ ownerDetails.type ++ ")",
                  filesChanged := toString changedFiles.length,
                  trigger := triggerType }
              let t1 : RunTrace :=
                { submittedSummary := some sf, backendCalled := true }
              match api.backend with
              | .error e => failTrace t1 e
              | .ok response => afterBackend inp api sf response t1

/-! Concrete fixtures used by the witness and counterexample theorems. -/

/-- Standard configuration inputs (no console-url configured). -/
def inpStd : Inputs := { apiKey := "key", backendUrl := "https://backend.test/scan" }

/-- A text changed file carrying a patch. -/
def fileA : RawFile :=
  { filename := "a.js", status := "modified", additions := 3, deletions := 1,
    patch := some "@@ -1 +1 @@" }

/-- A binary changed file: the listFiles response carries no `patch`. -/
def fileBin : RawFile :=
  { filename := "img.png", status := "added", additions := 0, deletions := 0,
    patch := none }

/-- One backend issue. -/
def issue1 : Issue :=
  { rule_id := "R1", message := "m", severity := "warning", filename := "a.js",
    line := 5 }

/-- A full backend result with one issue. -/
def okResult : ScanResult :=
  { critical := some 1, warnings := some 2, suggestions := some 0,
    passed := some 10, issues := some [issue1] }

/-- A successful backend response. -/
def respOk : BackendResponse := { ok := true, status := 200, result := okResult }

/-- The failing backend response of the spec's end-to-end scenario. -/
def resp500 : BackendResponse :=
  { ok := false, status := 500, bodyText := "server error" }

/-- The payload of an open (unmerged) pull request. -/
def prPayload : PullRequestPayload :=
  { number := 5, head_ref := "feature", merged := false }

/-- An oracle on which every external call succeeds. -/
def apiStd : Api :=
  { prFiles := [fileA, fileBin],
    pullsGet := .ok prPayload,
    actorUser := .ok { login := "octocat", name := some "The Octocat" },
    repoGet := .ok { name := "demo", full_name := "acme/demo" },
    orgsGet := .ok { login := "acme", name := some "Acme Corp" },
    ownerUser := .ok { login := "acme" },
    backend := .ok respOk,
    uploadSarifRes := .ok () }

/-- A pull_request/opened event context. -/
def prOpenedCtx : EventContext :=
  { eventName := "pull_request", action := "opened",
    pull_request := some prPayload, repoOwner := "acme", repoName := "demo",
    actor := "octocat", sha := "abc123" }

/-- An event the classifier does not recognize. -/
def ctxPush : EventContext := { eventName := "push", action := "created" }

/-- The payload of a merged pull request. -/
def prMergedPayload : PullRequestPayload :=
  { number := 8, head_ref := "hotfix", merged := true }

/-- A pull_request/closed event context whose PR was merged. -/
def ctxMerged : EventContext :=
  { eventName := "pull_request", action := "closed",
    pull_request := some prMergedPayload, repoOwner := "acme",
    repoName := "demo", actor := "octocat", sha := "abc123" }

/-- A trigger comment in mixed case with surrounding whitespace. -/
def commentMixed : CommentPayload := { body := "  Please /CORTEX Code REVIEW this  " }

/-- An issue that is a pull request. -/
def issueOnPr : IssuePayload := { number := 9, pull_request := true }

/-- A plain issue (no pull-request marker). -/
def issueNoPr : IssuePayload := { number := 9, pull_request := false }

/-- An issue_comment/created context: trigger comment on a PR. -/
def ctxComment : EventContext :=
  { eventName := "issue_comment", action := "created",
    comment := some commentMixed, issue := some issueOnPr,
    repoOwner := "acme", repoName := "demo", actor := "octocat", sha := "abc123" }

/-- An issue_comment/created context: trigger comment on a plain issue. -/
def ctxCommentNoPr : EventContext :=
  { ctxComment with issue := some issueNoPr }

/-- Summary fields of the `apiStd`/`prOpenedCtx` run. -/
def sfStd : SummaryFields :=
  { repository := "acme/demo", branch := "feature", pr := "#5",
    triggeredBy := "The Octocat (email not public)",
    owner := "Acme Corp (organization)", filesChanged := "2",
    trigger := "pr_opened" }

/-- Oracle on which `orgs.get` fails with a 500 server error (not a
not-found-class failure) while the user lookup succeeds. -/
def apiOrg500 : Api :=
  { apiStd with orgsGet := .error { message := "Server Error", status := some 500 } }

/-- Oracle on which the SARIF upload throws. -/
def apiUploadFail : Api :=
  { apiStd with uploadSarifRes := .error { message := "upload denied" } }

/-- Thirty-one changed files: one more than the listFiles endpoint's default page
size of 30. -/
def files31 : List RawFile :=
  (List.range 31).map fun i =>
    { filename := "f" ++ toString i ++ ".js", status := "modified",
      additions := 1, deletions := 0, patch := some "p" }

/-- Oracle for a PR touching 31 files. -/
def apiMany : Api := { apiStd with prFiles := files31 }

/-- The projection of the first page of `files31`. -/
def cf30 : List ChangedFile := (files31.take 30).map projectFile

/-- A backend result carrying only a scan id. -/
def resultScanId : ScanResult := { scan_id := some "42" }

/-! Helper lemmas shared by the claim theorems. -/

theorem run_skip (ctx : EventContext) (inp : Inputs) (api : Api)
    (h : classify ctx api = .skip) : run ctx inp api = {} := by
  unfold run
  rw [h]

theorem classify_unrecognized (ctx : EventContext) (api : Api)
    (h1 : ctx.eventName = "pull_request" →
      ctx.action ≠ "opened" ∧ ctx.action ≠ "closed")
    (h2 : ctx.eventName = "issue_comment" → ctx.action ≠ "created") :
    classify ctx api = .skip := by
  unfold classify
  by_cases he : ctx.eventName = "pull_request"
  · obtain ⟨ho, hc⟩ := h1 he
    simp [he, ho, hc]
  · by_cases he2 : ctx.eventName = "issue_comment"
    · have hcr := h2 he2
      simp [he, he2, hcr]
    · simp [he, he2]

/-- C3: for every input whose eventName is neither pull_request nor
issue_comment — and more generally for every event/action combination
outside the three recognized ones — `run` terminates with the empty
trace: no backend call, no failure, no summary; a clean no-op, not a
run failure. -/
theorem unhandled_event_clean_noop (ctx : EventContext) (inp : Inputs) (api : Api)
    (h1 : ctx.eventName = "pull_request" →
      ctx.action ≠ "opened" ∧ ctx.action ≠ "closed")
    (h2 : ctx.eventName = "issue_comment" → ctx.action ≠ "created") :
    run ctx inp api = {} :=
  run_skip ctx inp api (classify_unrecognized ctx api h1 h2)

/-- Witness for C3 at a concrete `push` event. -/
theorem unhandled_event_clean_noop_witness :
    run ctxPush inpStd apiStd = {} :=
  unhandled_event_clean_noop ctxPush inpStd apiStd (by decide) (by decide)

/-- C4: a pull_request/closed event triggers `pr_merged` exactly when the
pull request's `merged` flag is true; with `merged = false` the run is
the empty trace — no backend call and no failure. -/
theorem pr_merged_gate (ctx : EventContext) (inp : Inputs) (api : Api)
    (pr : PullRequestPayload)
    (hev : ctx.eventName = "pull_request") (hac : ctx.action = "closed")
    (hpr : ctx.pull_request = some pr) :
    ((∃ n b, classify ctx api = .go "pr_merged" n b) ↔ pr.merged = true) ∧
    (pr.merged = false → run ctx inp api = {}) := by
  have hcl : classify ctx api =
      if pr.merged then .go "pr_merged" pr.number (.ok pr.head_ref)
      else .skip := by
    unfold classify
    simp [hev, hac, hpr]
  cases hm : pr.merged with
  | true =>
    rw [hm] at hcl
    simp only [if_true] at hcl
    refine ⟨⟨fun _ => rfl, fun _ => ⟨pr.number, .ok pr.head_ref, hcl⟩⟩, ?_⟩
    intro hf
    exact absurd hf (by simp)
  | false =>
    rw [hm] at hcl
    simp at hcl
    constructor
    · constructor
      · rintro ⟨n, b, hgo⟩
        rw [hcl] at hgo
        exact absurd hgo (by simp)
      · intro hf
        exact absurd hf (by simp)
    · intro _
      exact run_skip ctx inp api hcl

/-- Witness for C4 at a concrete merged pull_request/closed event. -/
theorem pr_merged_gate_witness :
    ((∃ n b, classify ctxMerged apiStd = .go "pr_merged" n b) ↔
      prMergedPayload.merged = true) ∧
    (prMergedPayload.merged = false → run ctxMerged inpStd apiStd = {}) :=
  pr_merged_gate ctxMerged inpStd apiStd prMergedPayload rfl rfl rfl

/-- C5: an issue_comment/created event triggers `manual_comment` exactly
when the comment body — trimmed and lowercased, as `matchesTrigger`
does — contains "/cortex code review" and the parent issue is a pull
request; when the phrase matches but the issue is not a PR, the run is
the empty trace: skipped cleanly, no backend call, no error. -/
theorem manual_comment_gate (ctx : EventContext) (inp : Inputs) (api : Api)
    (c : CommentPayload) (issue : IssuePayload)
    (hev : ctx.eventName = "issue_comment") (hac : ctx.action = "created")
    (hc : ctx.comment = some c) (hi : ctx.issue = some issue) :
    ((∃ b, classify ctx api = .go "manual_comment" issue.number b) ↔
      (matchesTrigger c.body = true ∧ issue.pull_request = true)) ∧
    (matchesTrigger c.body = true → issue.pull_request = false →
      run ctx inp api = {}) := by
  cases hmt : matchesTrigger c.body with
  | false =>
    have hcl : classify ctx api = .skip := by
      unfold classify classifyComment
      simp [hev, hac, hc, hi, hmt]
    constructor
    · constructor
      · rintro ⟨b, hgo⟩
        rw [hcl] at hgo
        exact absurd hgo (by simp)
      · rintro ⟨h1, _⟩
        exact absurd h1 (by simp)
    · intro h1 _
      exact absurd h1 (by simp)
  | true =>
    cases hip : issue.pull_request with
    | false =>
      have hcl : classify ctx api = .skip := by
        unfold classify classifyComment
        simp [hev, hac, hc, hi, hmt, hip]
      refine ⟨⟨?_, ?_⟩, fun _ _ => run_skip ctx inp api hcl⟩
      · rintro ⟨b, hgo⟩
        rw [hcl] at hgo
        exact absurd hgo (by simp)
      · rintro ⟨_, h2⟩
        exact absurd h2 (by simp)
    | true =>
      have hcl : classify ctx api =
          .go "manual_comment" issue.number (api.pullsGet.map (·.head_ref)) := by
        unfold classify classifyComment
        simp [hev, hac, hc, hi, hmt, hip]
      refine ⟨⟨fun _ => ⟨rfl, rfl⟩, fun _ => ⟨_, hcl⟩⟩, ?_⟩
      intro _ h2
      exact absurd h2 (by simp)

/-- Witness for C5: the trigger phrase in mixed case with surrounding
whitespace, commented on a plain (non-PR) issue. -/
theorem manual_comment_gate_witness :
    ((∃ b, classify ctxCommentNoPr apiStd = .go "manual_comment" issueNoPr.number b) ↔
      (matchesTrigger commentMixed.body = true ∧ issueNoPr.pull_request = true)) ∧
    (matchesTrigger commentMixed.body = true → issueNoPr.pull_request = false →
      run ctxCommentNoPr inpStd apiStd = {}) :=
  manual_comment_gate ctxCommentNoPr inpStd apiStd commentMixed issueNoPr
    rfl rfl rfl rfl

/-- C1 (code evaluation at the failing input): `orgs.get` fails with a 500
server error — not a not-found-class failure — yet the `catch` at line
105 never inspects the error: `resolveOwner` falls back to the
individual-user lookup and the run completes without failing, where the
spec requires every non-not-found failure of the organization lookup to
propagate and fail the run. -/
theorem owner_fallback_swallows_server_error :
    apiOrg500.orgsGet = .error { message := "Server Error", status := some 500 } ∧
    resolveOwner apiOrg500 = .ok { type := "user", login := "acme" } ∧
    (run prOpenedCtx inpStd apiOrg500).failed = none ∧
    (run prOpenedCtx inpStd apiOrg500).backendCalled = true :=
  ⟨rfl, rfl, rfl, rfl⟩

/-- C2 counterexample: a PR touching 31 files.  The single unpaginated
`listFiles` call returns only the first page of 30, so the projected
sequence omits a changed file: the fetcher does not list *all* files
changed in the PR. -/
theorem changed_files_not_all_listed :
    apiMany.prFiles.length = 31 ∧
    fetchChangedFiles apiMany = .ok cf30 ∧
    cf30.length = 30 ∧
    cf30 ≠ apiMany.prFiles.map projectFile := by
  refine ⟨rfl, rfl, rfl, fun h => ?_⟩
  have hlen := congrArg List.length h
  exact absurd hlen (by decide)

/-- C2 (amended): the fetcher issues one unpaginated `listFiles` call, so
the sequence it builds is the first page of the PR's changed-file
collection, in API order; each element is projected to the ChangedFile
shape, and the patch is passed through as-is — an absent patch stays
absent and causes no failure. -/
theorem changed_files_first_page_projection (api : Api) (files : List RawFile)
    (h : api.listFiles = .ok files) :
    fetchChangedFiles api = .ok (files.map projectFile) ∧
    files = api.prFiles.take api.pageSize ∧
    (∀ i : Nat, (files.map projectFile)[i]? = files[i]?.map projectFile) ∧
    ∀ f : RawFile, (projectFile f).patch = f.patch ∧
      (projectFile f).filename = f.filename ∧
      (projectFile f).status = f.status ∧
      (projectFile f).additions = f.additions ∧
      (projectFile f).deletions = f.deletions := by
  have hfc : fetchChangedFiles api = .ok (files.map projectFile) := by
    unfold fetchChangedFiles
    rw [h]
    rfl
  refine ⟨hfc, ?_, ?_, ?_⟩
  · unfold Api.listFiles at h
    cases he : api.listFilesErr with
    | some e =>
      rw [he] at h
      exact absurd h (by simp)
    | none =>
      rw [he] at h
      simpa using h.symm
  · intro i
    simp
  · intro f
    exact ⟨rfl, rfl, rfl, rfl, rfl⟩

/-- Witness for C2's amended theorem: a two-file PR whose second file is
binary (no patch). -/
theorem changed_files_first_page_projection_witness :
    fetchChangedFiles apiStd = .ok [projectFile fileA, projectFile fileBin] ∧
    (projectFile fileBin).patch = none := by
  have h := changed_files_first_page_projection apiStd [fileA, fileBin] rfl
  exact ⟨h.1, (h.2.2.2 fileBin).1⟩

/-- C6: on a successful backend response, the SARIF upload is attempted
exactly when `result.issues` is present and non-empty; the uploaded
report carries one finding per input issue, in the same order, and each
finding preserves ruleId, message text, severity level, file location
and line number. -/
theorem sarif_upload_iff (inp : Inputs) (api : Api) (sf : SummaryFields)
    (response : BackendResponse) (t : RunTrace)
    (hok : response.ok = true) (ht : t.sarifUpload = none) :
    ((afterBackend inp api sf response t).sarifUpload ≠ none ↔
      issuesNonempty response.result.issues = true) ∧
    (∀ issues, response.result.issues = some issues → 0 < issues.length →
      (afterBackend inp api sf response t).sarifUpload =
        some (buildSarif issues)) ∧
    (∀ issues : List Issue,
      (buildSarif issues).results.length = issues.length ∧
      ∀ i : Nat, (buildSarif issues).results[i]? =
        issues[i]?.map issueToFinding) ∧
    (∀ issue : Issue,
      (issueToFinding issue).ruleId = issue.rule_id ∧
      (issueToFinding issue).messageText = issue.message ∧
      (issueToFinding issue).level = issue.severity ∧
      (issueToFinding issue).uri = issue.filename ∧
      (issueToFinding issue).startLine = issue.line) := by
  have key : (afterBackend inp api sf response t).sarifUpload =
      if issuesNonempty response.result.issues
      then some (buildSarif (response.result.issues.getD []))
      else none := by
    cases hne : issuesNonempty response.result.issues with
    | true =>
      cases hup : api.uploadSarifRes with
      | error e => simp [afterBackend, hok, hne, hup, failTrace, writeCompleted]
      | ok u => simp [afterBackend, hok, hne, hup, failTrace, writeCompleted]
    | false =>
      simp [afterBackend, hok, hne, writeCompleted, ht]
  refine ⟨?_, ?_, ?_, ?_⟩
  · rw [key]
    cases hne : issuesNonempty response.result.issues with
    | true => simp
    | false => simp
  · intro issues hiss hlen
    rw [key, hiss]
    simp [issuesNonempty, hlen]
  · intro issues
    exact ⟨by simp [buildSarif], fun i => by simp [buildSarif]⟩
  · intro issue
    exact ⟨rfl, rfl, rfl, rfl, rfl⟩

/-- Witness for C6: one issue in the backend result yields exactly its
SARIF report. -/
theorem sarif_upload_iff_witness :
    (afterBackend inpStd apiStd sfStd respOk {}).sarifUpload =
      some (buildSarif [issue1]) := by
  have h := sarif_upload_iff inpStd apiStd sfStd respOk {} rfl rfl
  exact h.2.1 [issue1] rfl (by decide)

theorem str_data_empty_iff (s : String) : s.data.isEmpty = true ↔ s = "" := by
  rw [List.isEmpty_iff]
  constructor
  · intro h
    exact String.ext (by simpa using h)
  · intro h
    rw [h]

theorem jsTruthy_some_true (s : String) (h : s ≠ "") :
    jsTruthy (some s) = true := by
  have hb : s.data.isEmpty = false := by
    cases hb : s.data.isEmpty
    · rfl
    · exact absurd ((str_data_empty_iff s).mp hb) h
  show (!s.data.isEmpty) = true
  rw [hb]
  rfl

theorem base_if_eq (consoleUrl : String) :
    (if consoleUrl.data = [] then "https://console.pervaziv.com"
      else consoleUrl)
    = (if consoleUrl = "" then "https://console.pervaziv.com"
      else consoleUrl) := by
  by_cases hc : consoleUrl = ""
  · rw [if_pos (by rw [hc]), if_pos hc]
  · have hd : consoleUrl.data ≠ [] := fun hd =>
      hc (String.ext (by simpa using hd))
    rw [if_neg hd, if_neg hc]

/-- C7: console-link priority — a non-empty `scan_url` is used verbatim;
otherwise a non-empty `scan_id` yields base + "/scans/" + id; otherwise
the bare base, where the base is the configured console-url input or,
when none is configured (`core.getInput` yields ""), the hardcoded
default "https://console.pervaziv.com". -/
theorem console_link_priority (consoleUrl : String) (result : ScanResult) :
    (∀ u, result.scan_url = some u → u ≠ "" →
      computeConsoleUrl consoleUrl result = u) ∧
    (jsTruthy result.scan_url = false →
      ∀ id, result.scan_id = some id → id ≠ "" →
        computeConsoleUrl consoleUrl result =
          (if consoleUrl = "" then "https://console.pervaziv.com"
            else consoleUrl) ++ "/scans/" ++ id) ∧
    (jsTruthy result.scan_url = false → jsTruthy result.scan_id = false →
      computeConsoleUrl consoleUrl result =
        if consoleUrl = "" then "https://console.pervaziv.com"
        else consoleUrl) := by
  refine ⟨?_, ?_, ?_⟩
  · intro u hu hne
    simp [computeConsoleUrl, hu, jsTruthy_some_true u hne]
  · intro hfu id hid hne
    simp [computeConsoleUrl, hfu, hid, jsTruthy_some_true id hne]
    rw [base_if_eq]
  · intro hfu hfi
    simp [computeConsoleUrl, hfu, hfi]
    rw [base_if_eq]

/-- Witness for C7: no console-url configured, result carries only a scan
id. -/
theorem console_link_priority_witness :
    computeConsoleUrl "" resultScanId = "https://console.pervaziv.com/scans/42" := by
  have h := (console_link_priority "" resultScanId).2.1 rfl "42" rfl (by decide)
  rw [h]
  decide

/-- C8: the completed summary renders each absent numeric result field
(critical, warnings, suggestions, passed) as "0", and writing it never
fails — the failure fields of the trace are untouched. -/
theorem completed_counts_default_zero (t : RunTrace) (sf : SummaryFields)
    (result : ScanResult) (url : String) :
    (writeCompleted t sf result url).failed = t.failed ∧
    (writeCompleted t sf result url).failureSummary = t.failureSummary ∧
    ∃ c, (writeCompleted t sf result url).completedSummary = some c ∧
      (result.critical = none → c.criticalStr = "0") ∧
      (result.warnings = none → c.warningsStr = "0") ∧
      (result.suggestions = none → c.suggestionsStr = "0") ∧
      (result.passed = none → c.passedStr = "0") := by
  refine ⟨rfl, rfl, _, rfl, fun h => ?_, fun h => ?_, fun h => ?_, fun h => ?_⟩
  · show toString (jsOrZero result.critical) = "0"
    rw [h]
    rfl
  · show toString (jsOrZero result.warnings) = "0"
    rw [h]
    rfl
  · show toString (jsOrZero result.suggestions) = "0"
    rw [h]
    rfl
  · show toString (jsOrZero result.passed) = "0"
    rw [h]
    rfl

/-- Witness for C8: an entirely empty backend result renders all four
counts as "0". -/
theorem completed_counts_default_zero_witness :
    ∃ c, (writeCompleted {} sfStd ({} : ScanResult) "u").completedSummary =
        some c ∧
      c.criticalStr = "0" ∧ c.warningsStr = "0" ∧
      c.suggestionsStr = "0" ∧ c.passedStr = "0" := by
  obtain ⟨-, -, c, hc, f1, f2, f3, f4⟩ :=
    completed_counts_default_zero {} sfStd {} "u"
  exact ⟨c, hc, f1 rfl, f2 rfl, f3 rfl, f4 rfl⟩

/-- C9: a non-success backend response is a hard failure: the run is
marked failed with a message carrying both the status code and the
response body text, a failure summary is written, and no completed
summary is produced. -/
theorem backend_error_hard_failure (inp : Inputs) (api : Api)
    (sf : SummaryFields) (response : BackendResponse) (t : RunTrace)
    (hok : response.ok = false) (ht : t.completedSummary = none) :
    (afterBackend inp api sf response t).failed =
      some (backendErrorMsg response.status response.bodyText) ∧
    (afterBackend inp api sf response t).failureSummary =
      some ("Error: " ++ backendErrorMsg response.status response.bodyText) ∧
    (afterBackend inp api sf response t).completedSummary = none ∧
    (∃ a b, backendErrorMsg response.status response.bodyText =
      a ++ toString response.status ++ b) ∧
    (∃ a b, backendErrorMsg response.status response.bodyText =
      a ++ response.bodyText ++ b) := by
  have hb : afterBackend inp api sf response t =
      failTrace t { message := backendErrorMsg response.status response.bodyText } := by
    unfold afterBackend
    rw [hok]
    rfl
  refine ⟨by rw [hb]; rfl, by rw [hb]; rfl,
    by rw [hb]; simp [failTrace, ht], ?_, ?_⟩
  · exact ⟨"Backend responded with ", ": " ++ response.bodyText,
      String.append_assoc _ _ _⟩
  · exact ⟨"Backend responded with " ++ toString response.status ++ ": ", "",
      (String.append_empty _).symm⟩

/-- Witness for C9: the spec's end-to-end scenario — HTTP 500 with body
"server error". -/
theorem backend_error_hard_failure_witness :
    (afterBackend inpStd apiStd sfStd resp500 {}).failed =
      some "Backend responded with 500: server error" ∧
    (afterBackend inpStd apiStd sfStd resp500 {}).completedSummary = none := by
  have h := backend_error_hard_failure inpStd apiStd sfStd resp500 {} rfl rfl
  refine ⟨?_, h.2.2.1⟩
  rw [h.1]
  rfl

/-- C10: when the SARIF upload throws, the completed summary is never
written; the error lands in the top-level handler, which writes the
failure summary and marks the run failed. -/
theorem sarif_upload_error_aborts (inp : Inputs) (api : Api)
    (sf : SummaryFields) (response : BackendResponse) (t : RunTrace)
    (e : JsError)
    (hok : response.ok = true)
    (hne : issuesNonempty response.result.issues = true)
    (hup : api.uploadSarifRes = .error e)
    (ht : t.completedSummary = none) :
    (afterBackend inp api sf response t).completedSummary = none ∧
    (afterBackend inp api sf response t).failed = some e.message ∧
    (afterBackend inp api sf response t).failureSummary =
      some ("Error: " ++ e.message) := by
  have hb : afterBackend inp api sf response t =
      failTrace
        { t with
          sarifUpload := some (buildSarif (response.result.issues.getD [])) }
        e := by
    unfold afterBackend
    rw [hok, hup]
    simp [hne]
  rw [hb]
  exact ⟨by simp [failTrace, ht], rfl, rfl⟩

/-- Witness for C10: a failing SARIF upload on a result with one issue. -/
theorem sarif_upload_error_aborts_witness :
    (afterBackend inpStd apiUploadFail sfStd respOk {}).completedSummary
      = none ∧
    (afterBackend inpStd apiUploadFail sfStd respOk {}).failed =
      some "upload denied" := by
  have h := sarif_upload_error_aborts inpStd apiUploadFail sfStd respOk {}
    { message := "upload denied" } rfl rfl rfl rfl
  exact ⟨h.1, h.2.1⟩

end Cortex
